import Mathlib

/-!
Shallow embedding of the figma-sync backend (TypeScript sources
`src/services/github.service.ts` and `src/services/text.service.ts`)
together with proofs about the GitHub synchronization protocol and the
in-memory text store.

String primitives below model the JavaScript built-ins used by the code:
`String.prototype.includes` (substring test) and
`String.prototype.replace(string, string)` (replacement of the first
occurrence only).
-/

/-- `dropPrefixQ pat s` returns `some rest` when `s = pat ++ rest`,
`none` when `pat` is not a prefix of `s`. -/
def dropPrefixQ : List Char → List Char → Option (List Char)
  | [], s => some s
  | _ :: _, [] => none
  | a :: as, b :: bs => if a = b then dropPrefixQ as bs else none

/-- `listContains pat s`: does `pat` occur as a contiguous sublist of `s`?
Models JavaScript `s.includes(pat)` on the character lists. -/
def listContains (pat : List Char) : List Char → Bool
  | [] => (dropPrefixQ pat []).isSome
  | c :: cs => (dropPrefixQ pat (c :: cs)).isSome || listContains pat cs

/-- JavaScript `s.includes(pat)`. -/
def strIncludes (s pat : String) : Bool :=
  listContains pat.toList s.toList

/-- Replace the first occurrence of `pat` in the list by `repl`;
everything after that first occurrence is kept verbatim.
Models JavaScript `String.prototype.replace` with a string pattern. -/
def replaceFirstL (pat repl : List Char) : List Char → List Char
  | [] =>
    match dropPrefixQ pat [] with
    | some rest => repl ++ rest
    | none => []
  | c :: cs =>
    match dropPrefixQ pat (c :: cs) with
    | some rest => repl ++ rest
    | none => c :: replaceFirstL pat repl cs

/-- JavaScript `s.replace(pat, repl)` (first occurrence only). -/
def replaceFirst (s pat repl : String) : String :=
  String.mk (replaceFirstL pat.toList repl.toList s.toList)

/-- Template rendering used by `syncContent`:
`template.replace('\x7bkey\x7d', key).replace('\x7btimestamp\x7d', timestamp)`. -/
def renderTemplate (template key timestamp : String) : String :=
  replaceFirst (replaceFirst template "{key}" key) "{timestamp}" timestamp

/-! ### Text store (`text.service.ts`)

`TextItem` mirrors the runtime shape of the stored records: the TS
interface marks `approvedAt`/`approvedBy` optional, and `loadFromJson`
performs no validation, so `version` can also be absent at runtime (the
repository's own test `should handle missing fields gracefully` relies
on this).  Absence (or NaN arising from arithmetic on an absent field)
is modelled as `none`. -/

structure TextItem where
  key : String
  content : String
  approvedAt : Option String
  approvedBy : Option String
  version : Option Nat
  deriving DecidableEq, Repr

/-- The artifact held by `TextService`; the JS object `texts` is modelled
as an insertion-ordered association list with unique keys. -/
structure TextArtifact where
  version : String
  lastUpdated : String
  texts : List (String × TextItem)
  deriving DecidableEq, Repr

/-- Association-list lookup, modelling `texts[key]`. -/
def lookupKey (l : List (String × TextItem)) (k : String) : Option TextItem :=
  match l with
  | [] => none
  | (k', v) :: rest => if k' = k then some v else lookupKey rest k

/-- `texts[key] = item`: overwrite in place when the key exists
(preserving object-key insertion order), append otherwise. -/
def setKey (l : List (String × TextItem)) (k : String) (v : TextItem) :
    List (String × TextItem) :=
  match l with
  | [] => [(k, v)]
  | (k', v') :: rest => if k' = k then (k, v) :: rest else (k', v') :: setKey rest k v

/-- `TextService.getText`. -/
def getText (a : TextArtifact) (k : String) : Option TextItem :=
  lookupKey a.texts k

/-- `TextService.updateText`.  The source reads the clock twice
(`approvedAt` and `lastUpdated` via separate `new Date()` calls), so the
model takes the two readings `nowA` and `nowB`. -/
def updateText (a : TextArtifact) (k c : String) (approvedBy : Option String)
    (nowA nowB : String) : TextItem × TextArtifact :=
  let existing := getText a k
  let version : Option Nat :=
    match existing with
    | some it => it.version.map (fun v => v + 1)
    | none => some 1
  let item : TextItem :=
    { key := k, content := c, approvedAt := some nowA, approvedBy := approvedBy,
      version := version }
  (item, { a with texts := setKey a.texts k item, lastUpdated := nowB })

/-- Result of the external `JSON.parse` boundary inside
`TextService.loadFromJson`: either the whole `try` body threw
(malformed input, or field access on a non-object), or it produced a
document whose top-level fields may each be absent. -/
inductive ParsedJson where
  | malformed
  | doc (version : Option String) (lastUpdated : Option String)
      (texts : Option (List (String × TextItem)))
  deriving DecidableEq

/-- JavaScript `v || dflt` on an optional string: absent and the falsy
empty string both fall back to the default. -/
def jsOrString (v : Option String) (dflt : String) : String :=
  match v with
  | some s => if s = "" then dflt else s
  | none => dflt

/-- `TextService.loadFromJson`, shallowly embedded at the `JSON.parse`
boundary; `now` is the `new Date().toISOString()` reading. -/
def loadFromJson (p : ParsedJson) (now : String) : TextArtifact :=
  match p with
  | .malformed => { version := "1.0.0", lastUpdated := now, texts := [] }
  | .doc v lu ts =>
      { version := jsOrString v "1.0.0", lastUpdated := jsOrString lu now,
        texts := ts.getD [] }

/-- Metadata record returned by `TextService.getMetadata`. -/
structure Metadata where
  version : String
  lastUpdated : String
  count : Nat
  deriving DecidableEq, Repr

/-- `TextService.getMetadata` (`count` is the number of keys). -/
def getMetadata (a : TextArtifact) : Metadata :=
  { version := a.version, lastUpdated := a.lastUpdated, count := a.texts.length }

/-! ### GitHub synchronizer (`github.service.ts`)

The Octokit remote API is the external boundary: a `RemoteEnv` fixes, for
the `n`-th call of each remote primitive, the outcome that call produces
(`Except.error msg` models a thrown `Error(msg)`).  `tsOf`/`nowOf` give
the `new Date().toISOString()` and `Date.now()` readings of attempt `n`.
A `SyncState` counts the calls issued so far and records them in a
trace. -/

structure GitHubFileContent where
  sha : String
  content : String
  deriving DecidableEq, Repr

structure GitHubPRConfig where
  token : String
  repo : String
  branch : String
  targetPath : String
  commitMessageTemplate : String
  prTitleTemplate : String
  prBodyTemplate : String
  deriving DecidableEq, Repr

structure CreatePRResult where
  success : Bool
  prUrl : Option String := none
  error : Option String := none
  noChanges : Option Bool := none
  deriving DecidableEq, Repr

/-- One remote adapter call, with the arguments the synchronizer passed. -/
inductive Event where
  | fetch
  | createBranch (name : String)
  | commit (branch content message : String) (sha : Option String)
  | openPR (branch title body : String)
  | deleteBranch (name : String)
  deriving DecidableEq, Repr

/-- Outcomes of the remote primitives, indexed by per-primitive call
number, plus the clock readings of each attempt. -/
structure RemoteEnv where
  fetchResp : Nat → Except String GitHubFileContent
  branchResp : Nat → Except String Unit
  commitResp : Nat → Except String Unit
  prResp : Nat → Except String String
  deleteResp : Nat → Except String Unit
  tsOf : Nat → String
  nowOf : Nat → String

structure SyncState where
  fetchCount : Nat := 0
  branchCount : Nat := 0
  commitCount : Nat := 0
  prCount : Nat := 0
  deleteCount : Nat := 0
  trace : List Event := []
  deriving DecidableEq, Repr

def SyncState.init : SyncState := {}

/-- `GitHubService.getCurrentFile`: a thrown error whose message contains
`'Not Found'` is translated to `null`; other errors propagate. -/
def getCurrentFileM (env : RemoteEnv) (s : SyncState) :
    Except String (Option GitHubFileContent) × SyncState :=
  let s' := { s with fetchCount := s.fetchCount + 1, trace := s.trace ++ [Event.fetch] }
  match env.fetchResp s.fetchCount with
  | .ok f => (.ok (some f), s')
  | .error e => if strIncludes e "Not Found" then (.ok none, s') else (.error e, s')

/-- `GitHubService.createBranch` (base-tip read plus ref creation,
one adapter operation in the model). -/
def createBranchM (env : RemoteEnv) (name : String) (s : SyncState) :
    Except String Unit × SyncState :=
  let s' := { s with branchCount := s.branchCount + 1,
                     trace := s.trace ++ [Event.createBranch name] }
  (env.branchResp s.branchCount, s')

/-- The `catch` clause of `GitHubService.commitFile`: an error message
containing `'SHA does not match'` is rethrown as the distinguished
race-condition error. -/
def raceWrap (e : String) : String :=
  if strIncludes e "SHA does not match" then
    "RACE_CONDITION: File was modified by another process"
  else e

/-- `GitHubService.commitFile`: when no `baseSha` is supplied it
re-fetches the current file to obtain one; the create-or-update call is
issued with the resulting optional sha; every error of the body is
filtered through `raceWrap`. -/
def commitFileM (env : RemoteEnv) (branchName content message : String)
    (baseSha : Option String) (s : SyncState) : Except String Unit × SyncState :=
  let (shaRes, s1) :=
    match baseSha with
    | some sha => (Except.ok (some sha), s)
    | none =>
        match getCurrentFileM env s with
        | (.ok cur, s') => (Except.ok (cur.map fun (f : GitHubFileContent) => f.sha), s')
        | (.error e, s') => (Except.error e, s')
  match shaRes with
  | .error e => (.error (raceWrap e), s1)
  | .ok fileSha =>
      let s2 := { s1 with commitCount := s1.commitCount + 1,
                          trace := s1.trace ++ [Event.commit branchName content message fileSha] }
      match env.commitResp s1.commitCount with
      | .ok _ => (.ok (), s2)
      | .error e => (.error (raceWrap e), s2)

/-- `GitHubService.createPullRequest`. -/
def createPullRequestM (env : RemoteEnv) (branchName title body : String)
    (s : SyncState) : Except String String × SyncState :=
  let s' := { s with prCount := s.prCount + 1,
                     trace := s.trace ++ [Event.openPR branchName title body] }
  (env.prResp s.prCount, s')

/-- `GitHubService.deleteBranch`. -/
def deleteBranchM (env : RemoteEnv) (name : String) (s : SyncState) :
    Except String Unit × SyncState :=
  let s' := { s with deleteCount := s.deleteCount + 1,
                     trace := s.trace ++ [Event.deleteBranch name] }
  (env.deleteResp s.deleteCount, s')

/-- The `try` body of `GitHubService.syncContent` for one attempt:
fetch, no-change short-circuit, branch creation, template rendering,
commit, pull request.  An `Except.error` is the exception reaching the
surrounding `catch`. -/
def syncBody (cfg : GitHubPRConfig) (env : RemoteEnv)
    (key newContent timestamp branchName : String) (s : SyncState) :
    Except String CreatePRResult × SyncState :=
  match getCurrentFileM env s with
  | (.error e, s1) => (.error e, s1)
  | (.ok currentFile, s1) =>
    if (match currentFile with
        | some cf => cf.content == newContent
        | none => false) then
      (.ok { success := true, noChanges := some true }, s1)
    else
      match createBranchM env branchName s1 with
      | (.error e, s2) => (.error e, s2)
      | (.ok _, s2) =>
        let commitMessage := renderTemplate cfg.commitMessageTemplate key timestamp
        match commitFileM env branchName newContent commitMessage
            (currentFile.map fun cf => cf.sha) s2 with
        | (.error e, s3) => (.error e, s3)
        | (.ok _, s3) =>
          let prTitle := renderTemplate cfg.prTitleTemplate key timestamp
          let prBody := renderTemplate cfg.prBodyTemplate key timestamp
          match createPullRequestM env branchName prTitle prBody s3 with
          | (.error e, s4) => (.error e, s4)
          | (.ok prUrl, s4) => (.ok { success := true, prUrl := some prUrl }, s4)

/-- `GitHubService.syncContent` with its `catch` clause: on any error,
best-effort branch deletion, then the retry-once-on-race-condition
policy.  `fuel` bounds the recursion; the recursive call only happens
when `retryCount = 0`, so `fuel = 1` never exhausts (the `fuel = 0`
branch is unreachable from `syncContent`). -/
def syncLoop (cfg : GitHubPRConfig) (env : RemoteEnv) (key newContent : String) :
    Nat → Nat → SyncState → CreatePRResult × SyncState
  | fuel, retryCount, s =>
    let timestamp := env.tsOf retryCount
    let branchName := "text-update-" ++ key ++ "-" ++ env.nowOf retryCount
    match syncBody cfg env key newContent timestamp branchName s with
    | (.ok r, s1) => (r, s1)
    | (.error e, s1) =>
      let s2 := (deleteBranchM env branchName s1).2
      if strIncludes e "RACE_CONDITION" then
        if retryCount < 1 then
          match fuel with
          | f + 1 => syncLoop cfg env key newContent f (retryCount + 1) s2
          | 0 => ({ success := false,
                    error := some "Failed due to race condition after retry" }, s2)
        else
          ({ success := false,
             error := some "Failed due to race condition after retry" }, s2)
      else
        ({ success := false, error := some e }, s2)

/-- `GitHubService.syncContent(key, newContent, retryCount)`. -/
def syncContent (cfg : GitHubPRConfig) (env : RemoteEnv)
    (key newContent : String) (retryCount : Nat) (s : SyncState) :
    CreatePRResult × SyncState :=
  syncLoop cfg env key newContent 1 retryCount s

/-- Number of commit calls recorded in a trace. -/
def countCommit (tr : List Event) : Nat :=
  (tr.filter fun e => match e with | .commit _ _ _ _ => true | _ => false).length

/-- Number of branch-creation calls recorded in a trace. -/
def countBranch (tr : List Event) : Nat :=
  (tr.filter fun e => match e with | .createBranch _ => true | _ => false).length

/-- Number of review-open calls recorded in a trace. -/
def countPR (tr : List Event) : Nat :=
  (tr.filter fun e => match e with | .openPR _ _ _ => true | _ => false).length

/-- Number of branch-delete calls recorded in a trace. -/
def countDelete (tr : List Event) : Nat :=
  (tr.filter fun e => match e with | .deleteBranch _ => true | _ => false).length

/-- Number of fetch calls recorded in a trace. -/
def countFetch (tr : List Event) : Nat :=
  (tr.filter fun e => match e with | .fetch => true | _ => false).length

/-- The commit calls of a trace, in order, with their arguments. -/
def commitCalls (tr : List Event) : List Event :=
  tr.filter fun e => match e with | .commit _ _ _ _ => true | _ => false

/-- The branch-delete calls of a trace, in order, with their arguments. -/
def deleteCalls (tr : List Event) : List Event :=
  tr.filter fun e => match e with | .deleteBranch _ => true | _ => false

/-! ### Reference-level model for `TextService.getAllTexts`

`getAllTexts` returns `\x7b ...this.artifact.texts \x7d`: a fresh top-level
object holding the *same* `TextItem` references.  To reason about
aliasing we model the JS object graph explicitly: `maps` holds mapping
objects (key → item reference), `items` holds the `TextItem` records,
and `nextRef` is the allocator. -/

/-- Lookup by reference number (first binding wins). -/
def lookupNat {α : Type} : List (Nat × α) → Nat → Option α
  | [], _ => none
  | (r, v) :: rest, q => if r = q then some v else lookupNat rest q

/-- Overwrite the first binding of a reference (no-op when absent). -/
def setNat {α : Type} : List (Nat × α) → Nat → α → List (Nat × α)
  | [], _, _ => []
  | (r, v) :: rest, q, w => if r = q then (q, w) :: rest else (r, v) :: setNat rest q w

/-- Lookup a key inside a mapping object's contents. -/
def lookupRef : List (String × Nat) → String → Option Nat
  | [], _ => none
  | (k, r) :: rest, q => if k = q then some r else lookupRef rest q

structure JSHeap where
  maps : List (Nat × List (String × Nat))
  items : List (Nat × TextItem)
  nextRef : Nat
  deriving DecidableEq, Repr

/-- `TextService.getAllTexts` at the heap level: allocate a fresh mapping
object whose contents are a shallow copy of the store's mapping — the
same item references, a new top-level object.  Returns the reference to
the copy. -/
def getAllTexts (h : JSHeap) (textsRef : Nat) : Nat × JSHeap :=
  let contents := (lookupNat h.maps textsRef).getD []
  (h.nextRef,
   { h with maps := (h.nextRef, contents) :: h.maps, nextRef := h.nextRef + 1 })

/-- The store's observable view: `getText` reading through the store's
mapping object and the item heap. -/
def storeGet (h : JSHeap) (textsRef : Nat) (k : String) : Option TextItem :=
  match lookupNat h.maps textsRef with
  | none => none
  | some m =>
    match lookupRef m k with
    | none => none
    | some r => lookupNat h.items r

/-- Mutation of a mapping object (adding, removing or rebinding keys of
the returned mapping, in any combination, yields some new contents `l`). -/
def setMapContents (h : JSHeap) (r : Nat) (l : List (String × Nat)) : JSHeap :=
  { h with maps := setNat h.maps r l }

/-- In-place mutation of a `TextItem` record through a reference
(e.g. `returned["k"].content = ...`). -/
def setItem (h : JSHeap) (r : Nat) (it : TextItem) : JSHeap :=
  { h with items := setNat h.items r it }

/-! ### Concrete fixtures used by witnesses and counterexamples -/

def cfgX : GitHubPRConfig :=
  { token := "tkn", repo := "o/r", branch := "main", targetPath := "texts.json",
    commitMessageTemplate := "Update {key} at {timestamp}",
    prTitleTemplate := "Update: {key}",
    prBodyTemplate := "PR for {key} at {timestamp}" }

/-- Remote adapter where every call succeeds and the remote file holds
`"OLD"`. -/
def envOk : RemoteEnv :=
  { fetchResp := fun _ => .ok { sha := "sha0", content := "OLD" },
    branchResp := fun _ => .ok (),
    commitResp := fun _ => .ok (),
    prResp := fun _ => .ok "pr-url",
    deleteResp := fun _ => .ok (),
    tsOf := fun n => "TS" ++ toString n,
    nowOf := fun n => "NOW" ++ toString n }

/-- Remote file already holds the body being synced. -/
def envSame : RemoteEnv :=
  { envOk with fetchResp := fun _ => .ok { sha := "sha0", content := "BODY" } }

/-- Every commit fails with the concurrency-token mismatch. -/
def envConflictBoth : RemoteEnv :=
  { envOk with
      fetchResp := fun n => .ok { sha := "sha" ++ toString n, content := "OLD" },
      commitResp := fun _ => .error "SHA does not match" }

/-- The first commit fails with the token mismatch, the second succeeds. -/
def envConflictOnce : RemoteEnv :=
  { envOk with
      fetchResp := fun n => .ok { sha := "sha" ++ toString n, content := "OLD" },
      commitResp := fun n => if n = 0 then .error "SHA does not match" else .ok () }

/-- The initial fetch itself fails with a generic API error; branch
deletion also fails (its error must be swallowed). -/
def envFetchErr : RemoteEnv :=
  { envOk with
      fetchResp := fun _ => .error "API Error",
      deleteResp := fun _ => .error "delete failed" }

/-- Branch creation fails; branch deletion also fails. -/
def envBranchErr : RemoteEnv :=
  { envOk with
      branchResp := fun _ => .error "Reference already exists",
      deleteResp := fun _ => .error "cleanup boom" }

def itemG : TextItem :=
  { key := "greeting", content := "Hi", approvedAt := some "T0",
    approvedBy := some "alice", version := some 1 }

def storeG : TextArtifact :=
  { version := "1.0.0", lastUpdated := "T0", texts := [("greeting", itemG)] }

def itemH : TextItem :=
  { key := "key1", content := "content1", approvedAt := some "T0",
    approvedBy := none, version := some 1 }

def itemHMut : TextItem :=
  { itemH with content := "modified" }

/-- A heap with one store mapping object (reference 0) holding one
record (reference 0). -/
def heap0 : JSHeap :=
  { maps := [(0, [("key1", 0)])], items := [(0, itemH)], nextRef := 1 }

/-- Record with all optional fields absent, as produced by loading
`\x7b"texts":\x7b"test-key":\x7b"key":"test-key","content":"test content"\x7d\x7d\x7d`. -/
def itemBare : TextItem :=
  { key := "test-key", content := "test content", approvedAt := none,
    approvedBy := none, version := none }

/-! ### Theorems -/

theorem lookupKey_setKey_self (l : List (String × TextItem)) (k : String) (v : TextItem) :
    lookupKey (setKey l k v) k = some v := by
  induction l with
  | nil => simp [setKey, lookupKey]
  | cons hd tl ih =>
    obtain ⟨k', v'⟩ := hd
    by_cases h : k' = k <;> simp [setKey, lookupKey, h, ih]

/-- C6: `upsert(k, c, a)` returns an item with content `c`, approver `a`,
`approvedAt` set to the clock reading, and version one more than the
prior item's version when `k` existed (else 1); afterwards the store
maps `k` to exactly that item (so a subsequent `get(k)` returns it) and
the artifact's `lastUpdated` is refreshed. -/
theorem updateText_upsert_spec (a : TextArtifact) (k c : String)
    (ab : Option String) (nowA nowB : String) :
    ((updateText a k c ab nowA nowB).1.content = c) ∧
    ((updateText a k c ab nowA nowB).1.approvedBy = ab) ∧
    ((updateText a k c ab nowA nowB).1.approvedAt = some nowA) ∧
    (∀ it v, getText a k = some it → it.version = some v →
      (updateText a k c ab nowA nowB).1.version = some (v + 1)) ∧
    (getText a k = none → (updateText a k c ab nowA nowB).1.version = some 1) ∧
    (getText (updateText a k c ab nowA nowB).2 k = some (updateText a k c ab nowA nowB).1) ∧
    ((updateText a k c ab nowA nowB).2.lastUpdated = nowB) := by
  refine ⟨rfl, rfl, rfl, ?_, ?_, ?_, rfl⟩
  · intro it v hit hv
    simp [updateText, hit, hv]
  · intro hnone
    simp [updateText, hnone]
  · simp [updateText, getText, lookupKey_setKey_self]

/-- Witness for C6 at the spec's concrete scenario: upserting
`"greeting"` a second time yields version 2. -/
theorem updateText_upsert_spec_witness :
    (updateText storeG "greeting" "Hello" (some "bob") "T1" "T2").1.version = some 2 :=
  (updateText_upsert_spec storeG "greeting" "Hello" (some "bob") "T1" "T2").2.2.2.1
    itemG 1 rfl rfl

/-- C7: deserialization is total (the model returns an artifact for
every parse outcome); a malformed document resets the store to the
default schema version, a fresh timestamp and an empty mapping
(`count = 0`); a well-formed document's records are stored verbatim, so
fields absent from a record (`version`/`approvedAt`/`approvedBy` being
`none`) are preserved as absent rather than defaulted. -/
theorem loadFromJson_spec (now : String) :
    ((getMetadata (loadFromJson ParsedJson.malformed now)).count = 0 ∧
     (loadFromJson ParsedJson.malformed now).version = "1.0.0" ∧
     (loadFromJson ParsedJson.malformed now).lastUpdated = now ∧
     (loadFromJson ParsedJson.malformed now).texts = []) ∧
    (∀ v lu l, (loadFromJson (ParsedJson.doc v lu (some l)) now).texts = l) ∧
    (∀ v lu l k it, lookupKey l k = some it →
      getText (loadFromJson (ParsedJson.doc v lu (some l)) now) k = some it) := by
  refine ⟨⟨rfl, rfl, rfl, rfl⟩, fun v lu l => rfl, ?_⟩
  intro v lu l k it h
  simpa [loadFromJson, getText] using h

/-- Witness for C7: a record whose `version`, `approvedAt` and
`approvedBy` are all absent is returned by `get` with them still
absent. -/
theorem loadFromJson_spec_witness :
    getText (loadFromJson (ParsedJson.doc none none (some [("test-key", itemBare)])) "T")
        "test-key" = some itemBare :=
  (loadFromJson_spec "T").2.2 none none [("test-key", itemBare)] "test-key" itemBare rfl

/-- C8 counterexample: `getAllTexts` only copies the top-level mapping;
the `TextItem` records are shared.  The returned mapping (reference 1)
holds the same record reference 0 as the store's mapping, and mutating
that record in place changes what the store's `get` subsequently
returns — refuting the claim that any mutation of the returned value,
including mutation of the contained records, leaves the store's
observable state unchanged. -/
theorem getAllTexts_deep_independence_cex :
    (getAllTexts heap0 0).1 = 1 ∧
    lookupNat (getAllTexts heap0 0).2.maps 1 = some [("key1", 0)] ∧
    storeGet heap0 0 "key1" = some itemH ∧
    storeGet (setItem (getAllTexts heap0 0).2 0 itemHMut) 0 "key1" = some itemHMut ∧
    storeGet (setItem (getAllTexts heap0 0).2 0 itemHMut) 0 "key1" ≠ storeGet heap0 0 "key1" := by
  decide

/-- C8 (amended): the returned mapping is itself a fresh object, so
replacing its contents arbitrarily (adding, removing or rebinding keys)
leaves the store's observable state unchanged; only in-place mutation of
the shared records is visible through the store. -/
theorem getAllTexts_shallow_independence (h : JSHeap) (textsRef : Nat)
    (hne : textsRef ≠ h.nextRef) (l : List (String × Nat)) (k : String) :
    storeGet (setMapContents (getAllTexts h textsRef).2 (getAllTexts h textsRef).1 l)
        textsRef k = storeGet h textsRef k := by
  have hne' : ¬(h.nextRef = textsRef) := fun hh => hne hh.symm
  simp [getAllTexts, setMapContents, setNat, storeGet, lookupNat, hne']

/-- Witness for C8's amended theorem: emptying the returned mapping
leaves the store's `get` unchanged on the concrete heap. -/
theorem getAllTexts_shallow_independence_witness :
    storeGet (setMapContents (getAllTexts heap0 0).2 (getAllTexts heap0 0).1 []) 0 "key1"
      = storeGet heap0 0 "key1" :=
  getAllTexts_shallow_independence heap0 0 (by decide) [] "key1"

theorem dropPrefixQ_append (l r : List Char) : dropPrefixQ l (l ++ r) = some r := by
  induction l with
  | nil => rfl
  | cons a as ih => simp [dropPrefixQ, ih]

theorem dropPrefixQ_eq_append (pat : List Char) :
    ∀ s r : List Char, dropPrefixQ pat s = some r → s = pat ++ r := by
  induction pat with
  | nil =>
    intro s r h
    simp [dropPrefixQ] at h
    simp [h]
  | cons a as ih =>
    intro s r h
    cases s with
    | nil => simp [dropPrefixQ] at h
    | cons b bs =>
      by_cases hab : a = b
      · rw [dropPrefixQ, if_pos hab] at h
        subst hab
        simp [ih bs r h]
      · rw [dropPrefixQ, if_neg hab] at h
        exact absurd h (by simp)

theorem replaceFirstL_not_contains (pat repl l : List Char)
    (h : listContains pat l = false) : replaceFirstL pat repl l = l := by
  induction l with
  | nil =>
    simp [listContains] at h
    simp [replaceFirstL, h]
  | cons c cs ih =>
    have h1 : (dropPrefixQ pat (c :: cs)).isSome = false := by
      cases hb : (dropPrefixQ pat (c :: cs)).isSome with
      | false => rfl
      | true => simp [listContains, hb] at h
    have h2 : listContains pat cs = false := by
      cases hb : listContains pat cs with
      | false => rfl
      | true => simp [listContains, hb] at h
    cases hd : dropPrefixQ pat (c :: cs) with
    | some r => rw [hd] at h1; simp at h1
    | none => simp [replaceFirstL, hd, ih h2]

/-- `replaceFirstL` decomposes its input at the first occurrence of the
pattern: the prefix `u` is the shortest one after which the pattern
occurs, the pattern is replaced there, and the whole suffix `v` — with
every later occurrence of the pattern in it — is kept verbatim. -/
theorem replaceFirstL_first_occ (pat repl : List Char) :
    ∀ l : List Char, listContains pat l = true →
    ∃ u v : List Char, l = u ++ pat ++ v ∧
      (∀ u' v' : List Char, l = u' ++ pat ++ v' → u.length ≤ u'.length) ∧
      replaceFirstL pat repl l = u ++ repl ++ v := by
  intro l
  induction l with
  | nil =>
    intro h
    simp [listContains] at h
    cases hd : dropPrefixQ pat [] with
    | none => rw [hd] at h; simp at h
    | some r =>
      have hp := dropPrefixQ_eq_append pat [] r hd
      have hpat : pat = [] := by
        cases pat with
        | nil => rfl
        | cons x xs => simp at hp
      have hr : r = [] := by
        rw [hpat] at hp
        simpa using hp.symm
      refine ⟨[], [], by simp [hpat], fun u' v' _ => by simp, ?_⟩
      simp [replaceFirstL, hd, hr]
  | cons c cs ih =>
    intro h
    cases hd : dropPrefixQ pat (c :: cs) with
    | some r =>
      have hp := dropPrefixQ_eq_append pat (c :: cs) r hd
      refine ⟨[], r, by simpa using hp, fun u' v' _ => by simp, ?_⟩
      simp [replaceFirstL, hd]
    | none =>
      have h2 : listContains pat cs = true := by
        rw [listContains, hd] at h
        simpa using h
      obtain ⟨u, v, h1, hmin, hrep⟩ := ih h2
      refine ⟨c :: u, v, by simp [h1], ?_, ?_⟩
      · intro u' v' he
        cases u' with
        | nil =>
          exfalso
          have hpre : (c :: cs) = pat ++ v' := by simpa using he
          have : dropPrefixQ pat (c :: cs) = some v' := by
            rw [hpre]
            exact dropPrefixQ_append pat v'
          rw [hd] at this
          exact Option.noConfusion this
        | cons c' u'' =>
          have he' : cs = u'' ++ pat ++ v' := by
            have := he
            simp only [List.cons_append] at this
            exact (List.cons.injEq _ _ _ _).mp this |>.2
          simpa using Nat.succ_le_succ (hmin u'' v' he')
      · simp [replaceFirstL, hd, hrep]

/-- String-level form of `replaceFirstL_first_occ`: JavaScript
`s.replace(pat, repl)` rewrites exactly the first occurrence of `pat`
and returns the suffix after it verbatim. -/
theorem replaceFirst_first_occ (s pat repl : String) (h : strIncludes s pat = true) :
    ∃ u v : String, s = u ++ pat ++ v ∧
      (∀ u' v' : String, s = u' ++ pat ++ v' → u.length ≤ u'.length) ∧
      replaceFirst s pat repl = u ++ repl ++ v := by
  obtain ⟨ls⟩ := s
  obtain ⟨lp⟩ := pat
  obtain ⟨lq⟩ := repl
  obtain ⟨u, v, h1, hmin, hrep⟩ := replaceFirstL_first_occ lp lq ls h
  refine ⟨String.mk u, String.mk v, ?_, ?_, ?_⟩
  · show String.mk ls = String.mk (u ++ lp ++ v)
    exact congrArg String.mk h1
  · intro u' v' he
    obtain ⟨lu'⟩ := u'
    obtain ⟨lv'⟩ := v'
    have he' : ls = lu' ++ lp ++ lv' := congrArg String.data he
    exact hmin lu' lv' he'
  · show String.mk (replaceFirstL lp lq ls) = String.mk (u ++ lq ++ v)
    exact congrArg String.mk hrep

theorem strIncludes_false_replaceFirst (s pat repl : String)
    (h : strIncludes s pat = false) : replaceFirst s pat repl = s := by
  obtain ⟨ls⟩ := s
  obtain ⟨lp⟩ := pat
  obtain ⟨lq⟩ := repl
  show String.mk (replaceFirstL lp lq ls) = String.mk ls
  rw [replaceFirstL_not_contains lp lq ls h]

theorem renderTemplate_verbatim (t k ts : String)
    (h1 : strIncludes t "{key}" = false) (h2 : strIncludes t "{timestamp}" = false) :
    renderTemplate t k ts = t := by
  rw [renderTemplate, strIncludes_false_replaceFirst t _ _ h1,
      strIncludes_false_replaceFirst t _ _ h2]

theorem raceWrap_of_sha (e : String) (h : strIncludes e "SHA does not match" = true) :
    raceWrap e = "RACE_CONDITION: File was modified by another process" := by
  simp [raceWrap, h]

theorem raceMsg_includes :
    strIncludes "RACE_CONDITION: File was modified by another process"
        "RACE_CONDITION" = true := by
  decide

/-- C1: when the remote handle's raw content is byte-identical to the
local serialized body, `syncContent` returns the no-change outcome
having issued only the single fetch: zero branch-creation, commit,
review-open and branch-delete calls. -/
theorem sync_noChange_no_side_effects (cfg : GitHubPRConfig) (env : RemoteEnv)
    (key body : String) (f : GitHubFileContent)
    (hf : env.fetchResp 0 = Except.ok f) (hc : f.content = body) :
    (syncContent cfg env key body 0 SyncState.init).1
      = { success := true, noChanges := some true } ∧
    (syncContent cfg env key body 0 SyncState.init).2.trace = [Event.fetch] ∧
    countBranch (syncContent cfg env key body 0 SyncState.init).2.trace = 0 ∧
    countCommit (syncContent cfg env key body 0 SyncState.init).2.trace = 0 ∧
    countPR (syncContent cfg env key body 0 SyncState.init).2.trace = 0 ∧
    countDelete (syncContent cfg env key body 0 SyncState.init).2.trace = 0 := by
  simp [syncContent, syncLoop, syncBody, getCurrentFileM, SyncState.init, hf, hc,
        countBranch, countCommit, countPR, countDelete]

/-- Witness for C1 on the concrete adapter whose remote file already
holds the body being synced. -/
theorem sync_noChange_no_side_effects_witness :
    (syncContent cfgX envSame "k" "BODY" 0 SyncState.init).1
      = { success := true, noChanges := some true } ∧
    countCommit (syncContent cfgX envSame "k" "BODY" 0 SyncState.init).2.trace = 0 := by
  have h := sync_noChange_no_side_effects cfgX envSame "k" "BODY"
      { sha := "sha0", content := "BODY" } rfl rfl
  exact ⟨h.1, h.2.2.2.1⟩

/-- C2 counterexample: with the token mismatch on both attempts the code
does make two commit and two branch-delete calls and returns a failure,
but the failure reason is the literal
`"Failed due to race condition after retry"`, not the claimed literal
`"conflict after retry"`. -/
theorem sync_conflict_reason_cex :
    (syncContent cfgX envConflictBoth "k" "BODY" 0 SyncState.init).1.success = false ∧
    countCommit (syncContent cfgX envConflictBoth "k" "BODY" 0 SyncState.init).2.trace = 2 ∧
    countDelete (syncContent cfgX envConflictBoth "k" "BODY" 0 SyncState.init).2.trace = 2 ∧
    (syncContent cfgX envConflictBoth "k" "BODY" 0 SyncState.init).1.error
      = some "Failed due to race condition after retry" ∧
    (syncContent cfgX envConflictBoth "k" "BODY" 0 SyncState.init).1.error
      ≠ some "conflict after retry" := by
  decide

/-- C2 (amended): a commit failing with the concurrency-token mismatch
on both attempts produces exactly two commit calls, two branch-delete
calls, and a failure outcome whose reason is the literal
`"Failed due to race condition after retry"`. -/
theorem sync_conflict_both_attempts (cfg : GitHubPRConfig) (env : RemoteEnv)
    (key body : String) (f0 f1 : GitHubFileContent) (e0 e1 : String)
    (hf0 : env.fetchResp 0 = Except.ok f0) (hf1 : env.fetchResp 1 = Except.ok f1)
    (hne0 : f0.content ≠ body) (hne1 : f1.content ≠ body)
    (hb0 : env.branchResp 0 = Except.ok ()) (hb1 : env.branchResp 1 = Except.ok ())
    (hc0 : env.commitResp 0 = Except.error e0) (hc1 : env.commitResp 1 = Except.error e1)
    (hs0 : strIncludes e0 "SHA does not match" = true)
    (hs1 : strIncludes e1 "SHA does not match" = true) :
    (syncContent cfg env key body 0 SyncState.init).1
      = { success := false, error := some "Failed due to race condition after retry" } ∧
    countCommit (syncContent cfg env key body 0 SyncState.init).2.trace = 2 ∧
    countDelete (syncContent cfg env key body 0 SyncState.init).2.trace = 2 := by
  simp [syncContent, syncLoop, syncBody, getCurrentFileM, createBranchM, commitFileM,
        createPullRequestM, deleteBranchM, SyncState.init, hf0, hf1, hb0, hb1, hc0, hc1,
        hne0, hne1, raceWrap_of_sha e0 hs0, raceWrap_of_sha e1 hs1, raceMsg_includes,
        countCommit, countDelete]

/-- Witness for C2's amended theorem on the concrete always-conflicting
adapter. -/
theorem sync_conflict_both_attempts_witness :
    (syncContent cfgX envConflictBoth "k" "BODY" 0 SyncState.init).1
      = { success := false, error := some "Failed due to race condition after retry" } :=
  (sync_conflict_both_attempts cfgX envConflictBoth "k" "BODY"
    { sha := "sha0", content := "OLD" } { sha := "sha1", content := "OLD" }
    "SHA does not match" "SHA does not match"
    rfl rfl (by decide) (by decide) rfl rfl rfl rfl (by decide) (by decide)).1

/-- C3: a token mismatch on the first attempt followed by a successful
second commit yields exactly two commit calls, exactly one branch-delete
call — for the first attempt's generated branch — and the success
outcome carrying the review reference. -/
theorem sync_conflict_then_success (cfg : GitHubPRConfig) (env : RemoteEnv)
    (key body : String) (f0 f1 : GitHubFileContent) (e0 url : String)
    (hf0 : env.fetchResp 0 = Except.ok f0) (hf1 : env.fetchResp 1 = Except.ok f1)
    (hne0 : f0.content ≠ body) (hne1 : f1.content ≠ body)
    (hb0 : env.branchResp 0 = Except.ok ()) (hb1 : env.branchResp 1 = Except.ok ())
    (hc0 : env.commitResp 0 = Except.error e0)
    (hs0 : strIncludes e0 "SHA does not match" = true)
    (hc1 : env.commitResp 1 = Except.ok ())
    (hp : env.prResp 0 = Except.ok url) :
    (syncContent cfg env key body 0 SyncState.init).1
      = { success := true, prUrl := some url } ∧
    countCommit (syncContent cfg env key body 0 SyncState.init).2.trace = 2 ∧
    countDelete (syncContent cfg env key body 0 SyncState.init).2.trace = 1 ∧
    deleteCalls (syncContent cfg env key body 0 SyncState.init).2.trace
      = [Event.deleteBranch ("text-update-" ++ key ++ "-" ++ env.nowOf 0)] := by
  simp [syncContent, syncLoop, syncBody, getCurrentFileM, createBranchM, commitFileM,
        createPullRequestM, deleteBranchM, SyncState.init, hf0, hf1, hb0, hb1, hc0, hc1,
        hp, hne0, hne1, raceWrap_of_sha e0 hs0, raceMsg_includes,
        countCommit, countDelete, deleteCalls]

/-- Witness for C3 on the concrete conflict-once adapter. -/
theorem sync_conflict_then_success_witness :
    (syncContent cfgX envConflictOnce "k" "BODY" 0 SyncState.init).1
      = { success := true, prUrl := some "pr-url" } :=
  (sync_conflict_then_success cfgX envConflictOnce "k" "BODY"
    { sha := "sha0", content := "OLD" } { sha := "sha1", content := "OLD" }
    "SHA does not match" "pr-url"
    rfl rfl (by decide) (by decide) rfl rfl rfl (by decide) rfl rfl).1

/-- C4: after a first-attempt conflict the retry issues a second fetch
(so the second commit carries the freshly fetched concurrency token
`f1.sha`), while both commit calls send the very `body` that was passed
to the original call — not a recomputed payload. -/
theorem sync_retry_same_body (cfg : GitHubPRConfig) (env : RemoteEnv)
    (key body : String) (f0 f1 : GitHubFileContent) (e0 url : String)
    (hf0 : env.fetchResp 0 = Except.ok f0) (hf1 : env.fetchResp 1 = Except.ok f1)
    (hne0 : f0.content ≠ body) (hne1 : f1.content ≠ body)
    (hb0 : env.branchResp 0 = Except.ok ()) (hb1 : env.branchResp 1 = Except.ok ())
    (hc0 : env.commitResp 0 = Except.error e0)
    (hs0 : strIncludes e0 "SHA does not match" = true)
    (hc1 : env.commitResp 1 = Except.ok ())
    (hp : env.prResp 0 = Except.ok url) :
    countFetch (syncContent cfg env key body 0 SyncState.init).2.trace = 2 ∧
    commitCalls (syncContent cfg env key body 0 SyncState.init).2.trace
      = [Event.commit ("text-update-" ++ key ++ "-" ++ env.nowOf 0) body
           (renderTemplate cfg.commitMessageTemplate key (env.tsOf 0)) (some f0.sha),
         Event.commit ("text-update-" ++ key ++ "-" ++ env.nowOf 1) body
           (renderTemplate cfg.commitMessageTemplate key (env.tsOf 1)) (some f1.sha)] := by
  simp [syncContent, syncLoop, syncBody, getCurrentFileM, createBranchM, commitFileM,
        createPullRequestM, deleteBranchM, SyncState.init, hf0, hf1, hb0, hb1, hc0, hc1,
        hp, hne0, hne1, raceWrap_of_sha e0 hs0, raceMsg_includes,
        countFetch, commitCalls]

/-- Witness for C4 on the concrete conflict-once adapter: the second
commit reuses the original body `"BODY"` with the second fetch's
token `"sha1"`. -/
theorem sync_retry_same_body_witness :
    commitCalls (syncContent cfgX envConflictOnce "k" "BODY" 0 SyncState.init).2.trace
      = [Event.commit ("text-update-" ++ "k" ++ "-" ++ envConflictOnce.nowOf 0) "BODY"
           (renderTemplate cfgX.commitMessageTemplate "k" (envConflictOnce.tsOf 0))
           (some "sha0"),
         Event.commit ("text-update-" ++ "k" ++ "-" ++ envConflictOnce.nowOf 1) "BODY"
           (renderTemplate cfgX.commitMessageTemplate "k" (envConflictOnce.tsOf 1))
           (some "sha1")] :=
  (sync_retry_same_body cfgX envConflictOnce "k" "BODY"
    { sha := "sha0", content := "OLD" } { sha := "sha1", content := "OLD" }
    "SHA does not match" "pr-url"
    rfl rfl (by decide) (by decide) rfl rfl rfl (by decide) rfl rfl).2

/-- C5: within one attempt the commit message, review title and review
body are each rendered by `renderTemplate` — literal first-occurrence
substitution of the two placeholders — and all three renderings use the
single timestamp `env.tsOf 0` captured at the start of the attempt;
moreover a template containing neither placeholder is rendered
verbatim (unknown placeholders are never touched). -/
theorem sync_templates_single_timestamp (cfg : GitHubPRConfig) (env : RemoteEnv)
    (key body : String) (f0 : GitHubFileContent) (url : String)
    (hf : env.fetchResp 0 = Except.ok f0) (hne : f0.content ≠ body)
    (hb : env.branchResp 0 = Except.ok ()) (hc : env.commitResp 0 = Except.ok ())
    (hp : env.prResp 0 = Except.ok url) :
    (syncContent cfg env key body 0 SyncState.init).2.trace
      = [Event.fetch,
         Event.createBranch ("text-update-" ++ key ++ "-" ++ env.nowOf 0),
         Event.commit ("text-update-" ++ key ++ "-" ++ env.nowOf 0) body
           (renderTemplate cfg.commitMessageTemplate key (env.tsOf 0)) (some f0.sha),
         Event.openPR ("text-update-" ++ key ++ "-" ++ env.nowOf 0)
           (renderTemplate cfg.prTitleTemplate key (env.tsOf 0))
           (renderTemplate cfg.prBodyTemplate key (env.tsOf 0))] ∧
    (∀ t k2 ts : String, strIncludes t "{key}" = false →
      strIncludes t "{timestamp}" = false → renderTemplate t k2 ts = t) := by
  constructor
  · simp [syncContent, syncLoop, syncBody, getCurrentFileM, createBranchM, commitFileM,
          createPullRequestM, SyncState.init, hf, hb, hc, hp, hne]
  · intro t k2 ts h1 h2
    exact renderTemplate_verbatim t k2 ts h1 h2

/-- Witness for C5 on the concrete all-success adapter: the single
attempt's three rendered strings all use `envOk.tsOf 0`. -/
theorem sync_templates_single_timestamp_witness :
    (syncContent cfgX envOk "k" "BODY" 0 SyncState.init).2.trace
      = [Event.fetch,
         Event.createBranch ("text-update-" ++ "k" ++ "-" ++ envOk.nowOf 0),
         Event.commit ("text-update-" ++ "k" ++ "-" ++ envOk.nowOf 0) "BODY"
           (renderTemplate cfgX.commitMessageTemplate "k" (envOk.tsOf 0)) (some "sha0"),
         Event.openPR ("text-update-" ++ "k" ++ "-" ++ envOk.nowOf 0)
           (renderTemplate cfgX.prTitleTemplate "k" (envOk.tsOf 0))
           (renderTemplate cfgX.prBodyTemplate "k" (envOk.tsOf 0))] :=
  (sync_templates_single_timestamp cfgX envOk "k" "BODY"
    { sha := "sha0", content := "OLD" } "pr-url" rfl (by decide) rfl rfl rfl).1

/-- C9: rendering substitutes only the first occurrence of each
placeholder, for every template.  First conjunct: for every string
containing the pattern, `replaceFirst` splits it at the *first*
occurrence (the prefix `u` is shortest, by the minimality clause),
replaces exactly that occurrence, and carries the whole suffix `v` —
and with it every later occurrence of the pattern — verbatim into the
output.  Second and third conjuncts instantiate this to
`renderTemplate`, which produces the commit message, review title and
review body: only the first `\x7bkey\x7d` of the template and only the
first `\x7btimestamp\x7d` of the key-substituted template are replaced;
all later occurrences remain verbatim in the rendered string. -/
theorem renderTemplate_first_occurrence_only :
    (∀ s pat repl : String, strIncludes s pat = true →
      ∃ u v : String, s = u ++ pat ++ v ∧
        (∀ u' v' : String, s = u' ++ pat ++ v' → u.length ≤ u'.length) ∧
        replaceFirst s pat repl = u ++ repl ++ v) ∧
    (∀ t key ts : String, strIncludes t "{key}" = true →
      ∃ u v : String, t = u ++ "{key}" ++ v ∧
        (∀ u' v' : String, t = u' ++ "{key}" ++ v' → u.length ≤ u'.length) ∧
        renderTemplate t key ts = replaceFirst (u ++ key ++ v) "{timestamp}" ts) ∧
    (∀ t key ts : String, strIncludes (replaceFirst t "{key}" key) "{timestamp}" = true →
      ∃ u v : String, replaceFirst t "{key}" key = u ++ "{timestamp}" ++ v ∧
        (∀ u' v' : String,
          replaceFirst t "{key}" key = u' ++ "{timestamp}" ++ v' → u.length ≤ u'.length) ∧
        renderTemplate t key ts = u ++ ts ++ v) := by
  refine ⟨replaceFirst_first_occ, ?_, ?_⟩
  · intro t key ts h
    obtain ⟨u, v, h1, hmin, hrep⟩ := replaceFirst_first_occ t "{key}" key h
    exact ⟨u, v, h1, hmin, by rw [renderTemplate, hrep]⟩
  · intro t key ts h
    obtain ⟨u, v, h1, hmin, hrep⟩ :=
      replaceFirst_first_occ (replaceFirst t "{key}" key) "{timestamp}" ts h
    exact ⟨u, v, h1, hmin, by rw [renderTemplate, hrep]⟩

/-- Witness for C9 on a template whose placeholders each occur twice
after nonempty prefixes: the theorem applies to it, and the concretely
evaluated rendering substitutes only the first occurrence of each
placeholder, leaving the later `\x7bkey\x7d` and `\x7btimestamp\x7d`
verbatim. -/
theorem renderTemplate_first_occurrence_only_witness :
    (∃ u v : String, ("a{key}b{key}" : String) = u ++ "{key}" ++ v ∧
      (∀ u' v' : String,
        ("a{key}b{key}" : String) = u' ++ "{key}" ++ v' → u.length ≤ u'.length) ∧
      renderTemplate "a{key}b{key}" "K" "T"
        = replaceFirst (u ++ "K" ++ v) "{timestamp}" "T") ∧
    renderTemplate "a{key}b{key}c{timestamp}d{timestamp}e" "K" "T"
      = "aKb{key}cTd{timestamp}e" := by
  constructor
  · exact renderTemplate_first_occurrence_only.2.1 "a{key}b{key}" "K" "T" (by decide)
  · decide

/-- C10: whenever an attempt fails — even when the failure precedes
branch creation (fetch failure) or is the branch creation itself —
exactly one branch-delete call is issued, for that attempt's generated
branch name; the delete outcome (`env.deleteResp` is unconstrained, so
a failing delete included) is swallowed, and the failure reason is the
original error alone. -/
theorem sync_cleanup_every_failure (cfg : GitHubPRConfig) (env : RemoteEnv)
    (key body e : String) :
    ((env.fetchResp 0 = Except.error e → strIncludes e "Not Found" = false →
      strIncludes e "RACE_CONDITION" = false →
      (syncContent cfg env key body 0 SyncState.init).1
        = { success := false, error := some e } ∧
      deleteCalls (syncContent cfg env key body 0 SyncState.init).2.trace
        = [Event.deleteBranch ("text-update-" ++ key ++ "-" ++ env.nowOf 0)] ∧
      countDelete (syncContent cfg env key body 0 SyncState.init).2.trace = 1)) ∧
    (∀ f0 : GitHubFileContent, env.fetchResp 0 = Except.ok f0 → f0.content ≠ body →
      env.branchResp 0 = Except.error e → strIncludes e "RACE_CONDITION" = false →
      (syncContent cfg env key body 0 SyncState.init).1
        = { success := false, error := some e } ∧
      deleteCalls (syncContent cfg env key body 0 SyncState.init).2.trace
        = [Event.deleteBranch ("text-update-" ++ key ++ "-" ++ env.nowOf 0)] ∧
      countDelete (syncContent cfg env key body 0 SyncState.init).2.trace = 1) ∧
    (∀ f0 : GitHubFileContent, env.fetchResp 0 = Except.ok f0 → f0.content ≠ body →
      env.branchResp 0 = Except.ok () → env.commitResp 0 = Except.error e →
      strIncludes e "SHA does not match" = false →
      strIncludes e "RACE_CONDITION" = false →
      (syncContent cfg env key body 0 SyncState.init).1
        = { success := false, error := some e } ∧
      deleteCalls (syncContent cfg env key body 0 SyncState.init).2.trace
        = [Event.deleteBranch ("text-update-" ++ key ++ "-" ++ env.nowOf 0)] ∧
      countDelete (syncContent cfg env key body 0 SyncState.init).2.trace = 1) ∧
    (∀ f0 : GitHubFileContent, env.fetchResp 0 = Except.ok f0 → f0.content ≠ body →
      env.branchResp 0 = Except.ok () → env.commitResp 0 = Except.ok () →
      env.prResp 0 = Except.error e → strIncludes e "RACE_CONDITION" = false →
      (syncContent cfg env key body 0 SyncState.init).1
        = { success := false, error := some e } ∧
      deleteCalls (syncContent cfg env key body 0 SyncState.init).2.trace
        = [Event.deleteBranch ("text-update-" ++ key ++ "-" ++ env.nowOf 0)] ∧
      countDelete (syncContent cfg env key body 0 SyncState.init).2.trace = 1) := by
  refine ⟨?_, ?_, ?_, ?_⟩
  · intro hf hnf hnr
    simp [syncContent, syncLoop, syncBody, getCurrentFileM, deleteBranchM,
          SyncState.init, hf, hnf, hnr, deleteCalls, countDelete]
  · intro f0 hf hne hb hnr
    simp [syncContent, syncLoop, syncBody, getCurrentFileM, createBranchM,
          deleteBranchM, SyncState.init, hf, hne, hb, hnr, deleteCalls, countDelete]
  · intro f0 hf hne hb hcm hnsha hnr
    simp [syncContent, syncLoop, syncBody, getCurrentFileM, createBranchM,
          commitFileM, deleteBranchM, raceWrap, SyncState.init, hf, hne, hb, hcm,
          hnsha, hnr, deleteCalls, countDelete]
  · intro f0 hf hne hb hcm hp hnr
    simp [syncContent, syncLoop, syncBody, getCurrentFileM, createBranchM,
          commitFileM, createPullRequestM, deleteBranchM, SyncState.init, hf, hne,
          hb, hcm, hp, hnr, deleteCalls, countDelete]

/-- Witness for C10 on two concrete adapters — one failing at the
initial fetch, one failing at branch creation — whose branch-delete
calls themselves fail, showing the cleanup error is swallowed and the
reported reason is the original error. -/
theorem sync_cleanup_every_failure_witness :
    ((syncContent cfgX envFetchErr "k" "BODY" 0 SyncState.init).1
        = { success := false, error := some "API Error" } ∧
     deleteCalls (syncContent cfgX envFetchErr "k" "BODY" 0 SyncState.init).2.trace
        = [Event.deleteBranch ("text-update-" ++ "k" ++ "-" ++ envFetchErr.nowOf 0)]) ∧
    ((syncContent cfgX envBranchErr "k" "BODY" 0 SyncState.init).1
        = { success := false, error := some "Reference already exists" } ∧
     deleteCalls (syncContent cfgX envBranchErr "k" "BODY" 0 SyncState.init).2.trace
        = [Event.deleteBranch ("text-update-" ++ "k" ++ "-" ++ envBranchErr.nowOf 0)]) := by
  constructor
  · have h := (sync_cleanup_every_failure cfgX envFetchErr "k" "BODY" "API Error").1
      rfl (by decide) (by decide)
    exact ⟨h.1, h.2.1⟩
  · have h := (sync_cleanup_every_failure cfgX envBranchErr "k" "BODY"
      "Reference already exists").2.1 { sha := "sha0", content := "OLD" }
      rfl (by decide) rfl (by decide)
    exact ⟨h.1, h.2.1⟩
